import Mathlib

/-!
Verification of the awspricing backend pricing pipeline.

Shallow embedding of:
  * backend/app/cost_engine.py        (pure cost arithmetic)
  * backend/app/public_pricing.py     (public price list client)
  * backend/app/pricing_resolver.py   (resolver: public first, then authenticated)

Modelling conventions
  * Python floats are modelled as exact rationals; the places where the code
    uses float("inf") are modelled with an explicit extended type EF
    (finite rational or +infinity).  None of the verified statements depends
    on binary rounding: the code paths only copy, compare and (in the cost
    engine) add/multiply values.
  * A JSON string appearing in a price document is abstracted by the
    equivalence class the code can observe: the result of float() on it
    (a finite value, +infinity, or a parse failure) together with its Python
    truthiness (empty or not).  This is the inductive type JStr.
  * JSON objects are modelled as association lists in document order;
    Python dict iteration order is insertion order, so list order models
    loop order faithfully.
  * Network fetches (urllib in public_pricing._fetch_json and the URL
    cascade that tries resolved / global / regional index URLs) are I/O;
    each resolve function is parameterised by the outcome of that cascade:
    the parsed document (or none) and the last recorded fetch error string.
  * The boto3 client and the paginated GetProducts call of the resolver are
    I/O; their outcome is the inductive AuthOutcome: a construction failure,
    a query failure (credential / client / generic), or the decoded product
    list (pages that fail to JSON-decode are already dropped inside
    get_products, so the list is the post-decode product list).
  * region_mapping.get_location_for_region is a static table lookup (the
    Rate Table the spec puts out of scope); it is modelled as an arbitrary lookup
    function passed to every operation, so every theorem holds for every
    table.  Python treats an empty location string as missing
    ("if not location"), which regionLocation reproduces.
  * Python list.sort(key=...) is a stable sort; stableSort below is a
    stable insertion sort, and a stable sort by a total preorder key has a
    unique result, so stableSort models list.sort exactly.
-/

/-! ## Small Python-flavoured helpers -/

/-- Lowercase a string character by character (models str.lower on the ASCII
data appearing in price documents). -/
def lowerStr (s : String) : String := String.mk (s.data.map Char.toLower)

/-- ASCII whitespace recognised by str.strip. -/
def isSpaceChar (c : Char) : Bool :=
  c = ' ' || c = '\t' || c = '\n' || c = '\r' || c = Char.ofNat 11 || c = Char.ofNat 12

/-- Strip whitespace from both ends of a character list. -/
def stripChars (l : List Char) : List Char :=
  ((l.dropWhile isSpaceChar).reverse.dropWhile isSpaceChar).reverse

/-- Models str.strip(). -/
def stripStr (s : String) : String := String.mk (stripChars s.data)

/-- Substring containment on lists (pat occurs contiguously in l). -/
def listSub [DecidableEq α] : List α → List α → Bool
  | [], _ => true
  | _ :: _, [] => false
  | pat, l@(_ :: rest) => (pat.isPrefixOf l) || listSub pat rest

/-- Models Python `pat in s` for strings. -/
def strIn (pat s : String) : Bool := listSub pat.data s.data

/-- Python `a or default` for an optional string (None and "" are falsy). -/
def pyOrStr (a : Option String) (d : String) : String :=
  match a with
  | some s => if s = "" then d else s
  | none => d

/-- Python truthiness of an Optional[str]. -/
def truthyOptStr : Option String → Bool
  | none => false
  | some s => !(s = "")

/-- First-match lookup in an association list (models dict.get on a dict,
whose keys are unique). -/
def dictGet (k : String) : List (String × α) → Option α
  | [] => none
  | (k2, v) :: rest => if k2 = k then some v else dictGet k rest

/-! ## Extended float: a finite rational or +infinity

Models the Python float values flowing through the pipeline: ordinary
numbers plus float("inf") used for open tier ends.  (float("nan") and
-inf never arise from the documents the claims quantify over and are not
modelled.) -/

inductive EF where
  | fin (q : ℚ)
  | inf
deriving DecidableEq

/-- Python `<=` restricted to non-NaN floats, with +inf greatest. -/
def EF.le : EF → EF → Bool
  | EF.fin a, EF.fin b => decide (a ≤ b)
  | EF.fin _, EF.inf => true
  | EF.inf, EF.fin _ => false
  | EF.inf, EF.inf => true

theorem efLe_total (a b : EF) : EF.le a b || EF.le b a := by
  cases a <;> cases b <;> simp [EF.le] <;> exact le_total _ _

theorem efLe_trans (a b c : EF) (h1 : EF.le a b = true) (h2 : EF.le b c = true) :
    EF.le a c = true := by
  cases a <;> cases b <;> cases c <;> simp_all [EF.le] <;> exact le_trans h1 h2

/-! ## JSON scalar strings -/

/-- A JSON string value from a price document, abstracted by what the code
observes of it: `num q` parses to the finite float q, `infStr` parses to
+infinity (float("inf")), `empty` is "" (falsy, unparseable), `other` is a
non-empty string float() rejects. -/
inductive JStr where
  | num (q : ℚ)
  | infStr
  | empty
  | other
deriving DecidableEq

/-- Result of Python float() on a JStr, None when it raises. -/
def jstrFloat : JStr → Option EF
  | JStr.num q => some (EF.fin q)
  | JStr.infStr => some EF.inf
  | JStr.empty => none
  | JStr.other => none

/-- Python truthiness of a JSON string (empty is falsy). -/
def truthyJ : JStr → Bool
  | JStr.empty => false
  | _ => true

/-- Python `a or b` over two optional JSON strings, as in
`dim.get("beginRange") or dim.get("startingRange")`. -/
def pyOrJ (a b : Option JStr) : Option JStr :=
  match a with
  | some v => if truthyJ v then some v else b
  | none => b

/-! ## Stable sort (models Python list.sort(key=...)) -/

/-- Insert a behind every element le-below-or-equal to it (keeps earlier
equal elements first: stability). -/
def stableInsert (le : α → α → Bool) (a : α) : List α → List α
  | [] => [a]
  | b :: bs => if le b a then b :: stableInsert le a bs else a :: b :: bs

/-- Stable insertion sort: fold the list left to right into a sorted
accumulator. -/
def stableSort (le : α → α → Bool) (l : List α) : List α :=
  l.foldl (fun s a => stableInsert le a s) []

theorem stableInsert_perm (le : α → α → Bool) (a : α) (l : List α) :
    List.Perm (stableInsert le a l) (a :: l) := by
  induction l with
  | nil => simp [stableInsert]
  | cons b bs ih =>
      simp only [stableInsert]
      split
      · exact (List.Perm.cons b ih).trans (List.Perm.swap a b bs)
      · exact List.Perm.refl _

theorem stableSort_perm (le : α → α → Bool) (l : List α) :
    List.Perm (stableSort le l) l := by
  suffices h : ∀ (l acc : List α),
      List.Perm (l.foldl (fun s a => stableInsert le a s) acc) (acc ++ l) by
    simpa using h l []
  intro l
  induction l with
  | nil => intro acc; simp
  | cons a l ih =>
      intro acc
      simp only [List.foldl_cons]
      refine (ih (stableInsert le a acc)).trans ?_
      have h1 : List.Perm (stableInsert le a acc) (a :: acc) := stableInsert_perm le a acc
      refine (h1.append_right l).trans ?_
      simpa using (List.perm_middle).symm

theorem mem_stableInsert (le : α → α → Bool) (a x : α) (l : List α) :
    x ∈ stableInsert le a l ↔ x = a ∨ x ∈ l := by
  simpa using (stableInsert_perm le a l).mem_iff

theorem stableInsert_pairwise (le : α → α → Bool)
    (htot : ∀ a b, le a b || le b a)
    (htrans : ∀ a b c, le a b = true → le b c = true → le a c = true)
    (a : α) (l : List α) (h : l.Pairwise (fun x y => le x y = true)) :
    (stableInsert le a l).Pairwise (fun x y => le x y = true) := by
  induction l with
  | nil => simp [stableInsert]
  | cons b bs ih =>
      rcases List.pairwise_cons.mp h with ⟨hb, hbs⟩
      simp only [stableInsert]
      by_cases hba : le b a = true
      · simp only [hba, if_true]
        refine List.pairwise_cons.mpr ⟨?_, ih hbs⟩
        intro x hx
        rcases (mem_stableInsert le a x bs).mp hx with rfl | hx
        · exact hba
        · exact hb x hx
      · simp only [hba, if_false]
        have hab : le a b = true := by
          have := htot a b
          rcases Bool.or_eq_true_iff.mp this with h1 | h1
          · exact h1
          · exact absurd h1 hba
        refine List.pairwise_cons.mpr ⟨?_, h⟩
        intro x hx
        rcases List.mem_cons.mp hx with rfl | hx
        · exact hab
        · exact htrans a b x hab (hb x hx)

theorem stableSort_pairwise (le : α → α → Bool)
    (htot : ∀ a b, le a b || le b a)
    (htrans : ∀ a b c, le a b = true → le b c = true → le a c = true)
    (l : List α) :
    (stableSort le l).Pairwise (fun x y => le x y = true) := by
  suffices h : ∀ (l acc : List α), acc.Pairwise (fun x y => le x y = true) →
      (l.foldl (fun s a => stableInsert le a s) acc).Pairwise (fun x y => le x y = true) by
    exact h l [] (by simp)
  intro l
  induction l with
  | nil => intro acc hacc; simpa using hacc
  | cons a l ih =>
      intro acc hacc
      simp only [List.foldl_cons]
      exact ih _ (stableInsert_pairwise le htot htrans a acc hacc)

/-! ## Cost engine (backend/app/cost_engine.py)

Pure arithmetic; floats modelled as exact rationals, float("inf") for an
open-ended band end modelled with EF. -/

def TB_CONVERSION_BINARY : ℚ := 1024

def TB_CONVERSION_DECIMAL : ℚ := 1000

/-- tb_to_gb: 1 TB = 1024 GB when binary, else 1000 GB (binary defaults to
true in the source; modelled as an explicit argument). -/
def tb_to_gb (tb : ℚ) (binary : Bool) : ℚ :=
  let mult := if binary then TB_CONVERSION_BINARY else TB_CONVERSION_DECIMAL
  tb * mult

/-- gb_to_tb: exact inverse conversion. -/
def gb_to_tb (gb : ℚ) (binary : Bool) : ℚ :=
  let mult := if binary then TB_CONVERSION_BINARY else TB_CONVERSION_DECIMAL
  gb / mult

/-- TierBand: from_gb inclusive, to_gb exclusive (EF.inf for open-ended),
rate per GB-month. -/
structure TierBand where
  from_gb : ℚ
  to_gb : EF
  rate_per_gb_month : ℚ
deriving DecidableEq

/-- versioned_gb: effective stored GB with versioning overhead. -/
def versioned_gb (base_gb overhead_pct : ℚ) : ℚ := base_gb * (1 + overhead_pct)

/-- copy_multiplier = 1 + max(0, num_copy_addons). -/
def copy_multiplier (num_copy_addons : ℤ) : ℚ := 1 + (max 0 num_copy_addons : ℤ)

/-- cost_from_flat_rate: monthly cost = GB * rate. -/
def cost_from_flat_rate (gb rate_per_gb_month : ℚ) : ℚ := gb * rate_per_gb_month

/-- Loop body of cost_from_tiers, threading (total, remaining) through the
band list exactly as the Python for-loop does. -/
def costTiersGo (total remaining : ℚ) : List TierBand → ℚ
  | [] => total
  | band :: rest =>
      if remaining ≤ 0 then total
      else
        let band_size :=
          min remaining (match band.to_gb with
            | EF.inf => remaining
            | EF.fin t => t - band.from_gb)
        let total2 := if band_size > 0 then total + band_size * band.rate_per_gb_month else total
        costTiersGo total2 (remaining - band_size) rest

/-- cost_from_tiers: blended monthly cost over bands sorted by from_gb. -/
def cost_from_tiers (gb : ℚ) (tiers : List TierBand) : ℚ := costTiersGo 0 gb tiers

/-- aws_backup_total = (base_gb * rate) * copy_mult + flat_addon. -/
def aws_backup_total (base_gb rate_per_gb_month copy_mult flat_addon_usd : ℚ) : ℚ :=
  cost_from_flat_rate base_gb rate_per_gb_month * copy_mult + flat_addon_usd

/-- s3_versioning_total: versioned GB through the tiers, then copy/flat. -/
def s3_versioning_total (base_gb overhead_pct : ℚ) (tiers : List TierBand)
    (copy_mult flat_addon_usd : ℚ) : ℚ :=
  cost_from_tiers (versioned_gb base_gb overhead_pct) tiers * copy_mult + flat_addon_usd

/-- delta_usd = cost - reference. -/
def delta_usd (cost reference : ℚ) : ℚ := cost - reference

/-- delta_pct = (cost - reference) / reference * 100, or 0 when reference
is 0. -/
def delta_pct (cost reference : ℚ) : ℚ :=
  if reference = 0 then 0 else (cost - reference) / reference * 100

/-! ## Price document data model

Only the keys the code reads are modelled; a missing key is none.  The
url entries of the diagnostic raw_filter_used payloads belong to the
unmodelled fetch cascade and are left out of the association lists. -/

/-- A price dimension object.  pricePerUnit is none when the key is absent
or (public client) not a dict; its value maps a currency code to a price
string. -/
structure Dim where
  pricePerUnit : Option (List (String × JStr)) := none
  unit : Option String := none
  beginRange : Option JStr := none
  endRange : Option JStr := none
  startingRange : Option JStr := none
  endingRange : Option JStr := none
deriving DecidableEq

/-- The product attribute keys the code reads.  usageTypeCamel is the
"usageType" spelling, storageClassAlt the "storage class" spelling. -/
structure Attrs where
  location : Option String := none
  productFamily : Option String := none
  usagetype : Option String := none
  usageTypeCamel : Option String := none
  storageClass : Option String := none
  storageClassAlt : Option String := none
deriving DecidableEq

/-- One pricing term entry: term_detail.get("priceDimensions") or {} is a
dict of dimension id to dimension. -/
structure TermDetail where
  priceDimensions : List (String × Dim) := []
deriving DecidableEq

/-- A product of the public bulk file: products[sku].get("attributes") or {}. -/
structure PubProduct where
  attrs : Attrs := {}
deriving DecidableEq

/-- A parsed public offer file: data["products"] and
data["terms"]["OnDemand"] (each `or {}`), keyed by sku. -/
structure PubDoc where
  products : List (String × PubProduct) := []
  onDemand : List (String × List (String × TermDetail)) := []
deriving DecidableEq

/-- A tier band dict built by _build_tier_band
({from_gb, to_gb, rate_per_gb_month}); all three values come from float()
so each may be +infinity. -/
structure Band where
  from_gb : EF
  to_gb : EF
  rate_per_gb_month : EF
deriving DecidableEq

/-- Normalized result dataclass, same shape in public_pricing and
pricing_resolver.  price_dimension none models the default empty dict. -/
structure PricingResult where
  rate_per_gb_month : Option EF := none
  tiers : List Band := []
  unit : String := "GB-Mo"
  currency : String := "USD"
  sku : Option String := none
  product_attributes : Attrs := {}
  term_code : Option String := none
  price_dimension : Option Dim := none
  raw_filter_used : List (String × String) := []
  error : Option String := none
deriving DecidableEq

/-- Region table lookup as the callers use it: get_location_for_region
composed with the caller guard `if not location`, which also rejects an
empty location string.  The table itself is the out-of-scope Rate Table,
abstracted as the function loc. -/
def regionLocation (loc : String → Option String) (region_code : String) : Option String :=
  match loc region_code with
  | none => none
  | some l => if l = "" then none else some l

/-! ## public_pricing.py -/

/-- public_pricing._normalize_to_gb_month: accept unit labels containing
gb-mo or gb-month, or equal to gb, after strip().lower(). -/
def normalize_to_gb_month (price_per_unit : EF) (unit : String) : Option EF :=
  let u := lowerStr (stripStr unit)
  if strIn "gb-mo" u || strIn "gb-month" u || u = "gb" then some price_per_unit else none

/-- public_pricing._parse_price_dimension: price in the requested currency
(pricePerUnit must be a dict) and the unit label, defaulting to "". -/
def parse_price_dimension (dim : Dim) (currency : String) : Option EF × String :=
  let unit := dim.unit.getD ""
  match dim.pricePerUnit with
  | none => (none, unit)
  | some pu =>
      match dictGet currency pu with
      | none => (none, unit)
      | some v =>
          match jstrFloat v with
          | none => (none, unit)
          | some p => (some p, unit)

/-- public_pricing._build_tier_band. -/
def build_tier_band (f t r : EF) : Band :=
  { from_gb := f, to_gb := t, rate_per_gb_month := r }

/-- public_pricing._range_from_dim: begin/end range with both key naming
conventions (beginRange or startingRange, endRange or endingRange via
Python `or`), default [0, inf), non-numeric values ignored. -/
def range_from_dim (dim : Dim) : EF × EF :=
  let br := pyOrJ dim.beginRange dim.startingRange
  let er := pyOrJ dim.endRange dim.endingRange
  let start := match br with
    | none => EF.fin 0
    | some v => (jstrFloat v).getD (EF.fin 0)
  let stop := match er with
    | none => EF.inf
    | some v => (jstrFloat v).getD EF.inf
  (start, stop)

/-- public_pricing._backup_storage_match. -/
def backup_storage_match (attrs : Attrs) (location : String) : Bool :=
  let loc := stripStr (pyOrStr attrs.location "")
  if loc ≠ location then false
  else
    let pf := lowerStr (stripStr (pyOrStr attrs.productFamily ""))
    if pf = "storage" || pf = "backup storage" || pf = "backup" then true
    else
      let ut := lowerStr (pyOrStr attrs.usagetype (pyOrStr attrs.usageTypeCamel ""))
      if strIn "backup" ut && strIn "storage" ut then true
      else if pf ≠ "" && strIn "storage" pf then true
      else false

/-- First usable price dimension of a term entry for the backup public
scan: price parses in the currency, unit normalizes, rate >= 0. -/
def firstBackupDim (currency : String) : List (String × Dim) → Option (Dim × EF)
  | [] => none
  | (_, dim) :: rest =>
      match parse_price_dimension dim currency with
      | (none, _) => firstBackupDim currency rest
      | (some p, unit) =>
          match normalize_to_gb_month p unit with
          | some rate =>
              if EF.le (EF.fin 0) rate then some (dim, rate)
              else firstBackupDim currency rest
          | none => firstBackupDim currency rest

/-- First usable dimension across the term entries of one sku. -/
def firstBackupTerm (currency : String) : List (String × TermDetail) → Option (Dim × EF)
  | [] => none
  | (_, td) :: rest =>
      match firstBackupDim currency td.priceDimensions with
      | some h => some h
      | none => firstBackupTerm currency rest

/-- The backup public product scan: first product matching
_backup_storage_match whose sku is in terms.OnDemand and that yields a
usable dimension. -/
def firstBackupHit (onDemand : List (String × List (String × TermDetail)))
    (location currency : String) :
    List (String × PubProduct) → Option (String × Attrs × Dim × EF)
  | [] => none
  | (sku, product) :: rest =>
      let attrs := product.attrs
      if ¬ backup_storage_match attrs location then
        firstBackupHit onDemand location currency rest
      else
        match dictGet sku onDemand with
        | none => firstBackupHit onDemand location currency rest
        | some term_entries =>
            match firstBackupTerm currency term_entries with
            | some (dim, rate) => some (sku, attrs, dim, rate)
            | none => firstBackupHit onDemand location currency rest

/-- public_pricing.resolve_aws_backup_storage_public, parameterised by the
outcome (fetched, fetch_error) of the offer-code discovery and URL
cascade. -/
def resolve_aws_backup_storage_public (loc : String → Option String)
    (region_code currency : String)
    (fetched : Option PubDoc) (fetch_error : String) : PricingResult :=
  match regionLocation loc region_code with
  | none => { error := some ("Unknown region: " ++ region_code) }
  | some location =>
      match fetched with
      | none =>
          { error := some ("AWS Backup not in public price list. " ++
              (if fetch_error = "" then "Try Pricing API with credentials for Backup."
               else fetch_error)),
            raw_filter_used := [("service", "AWS Backup"), ("region", region_code)] }
      | some data =>
          let base : PricingResult :=
            { raw_filter_used := [("service", "AWS Backup (public)"), ("location", location)] }
          match firstBackupHit data.onDemand location currency data.products with
          | some (sku, attrs, dim, rate) =>
              { base with
                rate_per_gb_month := some rate,
                sku := some sku,
                product_attributes := attrs,
                term_code := some "OnDemand",
                price_dimension := some dim,
                currency := currency,
                unit := "GB-Mo" }
          | none =>
              { base with
                error := some ("AWS Backup storage not in public price list for this region." ++
                  " S3 comparison below uses public pricing.") }

/-- One collected S3 storage hit: the (start, end, rate) triple plus the
metadata of the dimension it came from.  sku is optional because the
authenticated path reads it from product["product"].get("sku"). -/
structure S3Hit where
  start : EF
  stop : EF
  rate : EF
  sku : Option String
  attrs : Attrs
  dim : Dim
deriving DecidableEq

/-- The (start, end, rate) triple of a hit, as appended to
tiers_with_rates. -/
def hitTriple (h : S3Hit) : EF × EF × EF := (h.start, h.stop, h.rate)

/-- Sort key of tiers_with_rates.sort(key=lambda x: x[0]). -/
def leTripleStart (a b : EF × EF × EF) : Bool := EF.le a.1 b.1

/-- public_pricing.resolve_s3_storage_public product filter: productFamily
equals "Storage", location matches exactly, storage class matches with the
relaxed comparison (Standard also matches classes containing "general"). -/
def s3_storage_match (attrs : Attrs) (location storage_class : String) : Bool :=
  if attrs.productFamily ≠ some "Storage" then false
  else if attrs.location ≠ some location then false
  else
    let sc := lowerStr (stripStr (pyOrStr attrs.storageClass (pyOrStr attrs.storageClassAlt "")))
    let want := lowerStr (stripStr storage_class)
    if sc ≠ "" then
      if want = "standard" && (strIn "general" sc || sc = "standard") then true
      else if want ≠ sc && ¬ strIn want sc && ¬ strIn sc want then false
      else true
    else true

/-- Collect the usable dimensions of one term entry for the S3 public scan
(no early return): price parses, unit normalizes, rate >= 0; range via
_range_from_dim. -/
def s3DimHits (sku : Option String) (attrs : Attrs) (currency : String) :
    List (String × Dim) → List S3Hit
  | [] => []
  | (_, dim) :: rest =>
      let tail := s3DimHits sku attrs currency rest
      match parse_price_dimension dim currency with
      | (none, _) => tail
      | (some p, unit) =>
          match normalize_to_gb_month p unit with
          | none => tail
          | some rate =>
              if ¬ EF.le (EF.fin 0) rate then tail
              else
                let r := range_from_dim dim
                { start := r.1, stop := r.2, rate := rate,
                  sku := sku, attrs := attrs, dim := dim } :: tail

/-- Collect across the term entries of one sku. -/
def s3TermHits (sku : Option String) (attrs : Attrs) (currency : String) :
    List (String × TermDetail) → List S3Hit
  | [] => []
  | (_, td) :: rest =>
      s3DimHits sku attrs currency td.priceDimensions ++ s3TermHits sku attrs currency rest

/-- Collect across all products of the public S3 offer file, in document
order. -/
def s3PublicHits (onDemand : List (String × List (String × TermDetail)))
    (location storage_class currency : String) :
    List (String × PubProduct) → List S3Hit
  | [] => []
  | (sku, product) :: rest =>
      let tail := s3PublicHits onDemand location storage_class currency rest
      let attrs := product.attrs
      if ¬ s3_storage_match attrs location storage_class then tail
      else
        match dictGet sku onDemand with
        | none => tail
        | some term_entries => s3TermHits (some sku) attrs currency term_entries ++ tail

/-- The metadata assignments performed inside the collection loop: the
first hit with result.sku still None supplies sku/attributes/term/dimension
(for the public path sku is always set, so this is the first hit), and
currency/unit are (re)assigned on every hit. -/
def s3MetaFold (currency : String) (r : PricingResult) : List S3Hit → PricingResult
  | [] => r
  | h :: rest =>
      let r1 :=
        if r.sku = none then
          { r with
            sku := h.sku
            product_attributes := h.attrs
            term_code := some "OnDemand"
            price_dimension := some h.dim }
        else r
      let r2 := { r1 with currency := currency, unit := "GB-Mo" }
      s3MetaFold currency r2 rest

/-- The collapse condition of both S3 paths:
len(tiers_with_rates) == 1 and tiers_with_rates[0][1] == float("inf"),
returning the single rate when it holds. -/
def singleUnboundedRate : List (EF × EF × EF) → Option EF
  | [(_, EF.inf, rate)] => some rate
  | _ => none

/-- The shared tail of both S3 resolvers: error when nothing was collected;
otherwise sort the triples by start and either collapse a single unbounded
triple to a flat rate or report the full sorted tier list. -/
def s3Collapse (errMsg currency : String) (base : PricingResult)
    (hits : List S3Hit) : PricingResult :=
  match hits with
  | [] => { base with error := some errMsg }
  | _ :: _ =>
      let r := s3MetaFold currency base hits
      let sorted := stableSort leTripleStart (hits.map hitTriple)
      match singleUnboundedRate sorted with
      | some rate => { r with rate_per_gb_month := some rate }
      | none => { r with tiers := sorted.map (fun t => build_tier_band t.1 t.2.1 t.2.2) }

/-- public_pricing.resolve_s3_storage_public, parameterised by the outcome
(fetched, fetch_error) of the URL cascade. -/
def resolve_s3_storage_public (loc : String → Option String)
    (region_code storage_class currency : String)
    (fetched : Option PubDoc) (fetch_error : String) : PricingResult :=
  match regionLocation loc region_code with
  | none => { error := some ("Unknown region: " ++ region_code) }
  | some location =>
      match fetched with
      | none =>
          { error := some ("Public price list (S3) unavailable. " ++
              (if fetch_error = "" then "Check network." else fetch_error)),
            raw_filter_used := [("service", "AmazonS3"), ("region", region_code)] }
      | some data =>
          let base : PricingResult :=
            { raw_filter_used := [("service", "Amazon S3 (public)"),
                ("storageClass", storage_class), ("location", location)] }
          s3Collapse
            "No S3 storage price found for storage class and location in public price list"
            currency base
            (s3PublicHits data.onDemand location storage_class currency data.products)

/-! ## pricing_resolver.py -/

/-- pricing_resolver._normalize_to_gb_month (same acceptance as the public
variant, written with a separate u == "gb" branch). -/
def res_normalize_to_gb_month (price_per_unit : EF) (unit : String) : Option EF :=
  let u := lowerStr (stripStr unit)
  if strIn "gb-mo" u || strIn "gb-month" u then some price_per_unit
  else if u = "gb" then some price_per_unit
  else none

/-- pricing_resolver._parse_price_dimension:
dim.get("pricePerUnit", {}).get(currency), float() it, unit label. -/
def res_parse_price_dimension (dim : Dim) (currency : String) : Option EF × String :=
  let unit := dim.unit.getD ""
  match dictGet currency (dim.pricePerUnit.getD []) with
  | none => (none, unit)
  | some v =>
      match jstrFloat v with
      | none => (none, unit)
      | some p => (some p, unit)

/-- Tier range extraction inlined in resolve_s3_storage (lines 278-292):
only beginRange / endRange are consulted; absent or non-numeric values
leave the defaults 0 and inf. -/
def res_s3_range (dim : Dim) : EF × EF :=
  let start := match dim.beginRange with
    | none => EF.fin 0
    | some v => (jstrFloat v).getD (EF.fin 0)
  let stop := match dim.endRange with
    | none => EF.inf
    | some v => (jstrFloat v).getD EF.inf
  (start, stop)

/-- One product decoded from a GetProducts page: the keys the resolver
reads. -/
structure AuthProduct where
  sku : Option String := none
  attrs : Attrs := {}
  onDemand : List (String × TermDetail) := []
  reserved : List (String × TermDetail) := []
deriving DecidableEq

/-- Outcome of the authenticated phase: client construction failure
(NoCredentialsError or another exception), get_products failure
(NoCredentialsError, ClientError, or another exception carrying str(e)),
or the decoded product list. -/
inductive AuthOutcome where
  | clientNoCreds
  | clientOtherError (msg : String)
  | prodNoCreds
  | prodClientError (msg : String)
  | prodOtherError (msg : String)
  | ok (products : List AuthProduct)
deriving DecidableEq

/-- Generic message used when client construction hits
NoCredentialsError. -/
def noCredsClientMsg : String :=
  "Pricing unavailable. Public price list failed; no AWS credentials for API fallback."

/-- Generic message used when get_products raises NoCredentialsError. -/
def noCredsQueryMsg : String :=
  "Public price list failed; no AWS credentials for API fallback."

/-- First usable dimension of a term entry in the authenticated scans. -/
def authFirstDim (currency : String) : List (String × Dim) → Option (Dim × EF)
  | [] => none
  | (_, dim) :: rest =>
      match res_parse_price_dimension dim currency with
      | (none, _) => authFirstDim currency rest
      | (some p, unit) =>
          match res_normalize_to_gb_month p unit with
          | some rate =>
              if EF.le (EF.fin 0) rate then some (dim, rate)
              else authFirstDim currency rest
          | none => authFirstDim currency rest

/-- First usable dimension across a dict of term entries. -/
def authFirstTerm (currency : String) : List (String × TermDetail) → Option (Dim × EF)
  | [] => none
  | (_, td) :: rest =>
      match authFirstDim currency td.priceDimensions with
      | some h => some h
      | none => authFirstTerm currency rest

/-- First backup loop: first Storage product with a usable OnDemand
dimension. -/
def authBackupFirstPass (currency : String) :
    List AuthProduct → Option (AuthProduct × Dim × EF)
  | [] => none
  | p :: rest =>
      if (p.attrs.productFamily.getD "") ≠ "Storage" then
        authBackupFirstPass currency rest
      else
        match authFirstTerm currency p.onDemand with
        | some (dim, rate) => some (p, dim, rate)
        | none => authBackupFirstPass currency rest

/-- Second backup loop: per Storage product try OnDemand then Reserved,
first usable dimension wins with its term type. -/
def authBackupSecondPass (currency : String) :
    List AuthProduct → Option (AuthProduct × String × Dim × EF)
  | [] => none
  | p :: rest =>
      if p.attrs.productFamily ≠ some "Storage" then
        authBackupSecondPass currency rest
      else
        match authFirstTerm currency p.onDemand with
        | some (dim, rate) => some (p, "OnDemand", dim, rate)
        | none =>
            match authFirstTerm currency p.reserved with
            | some (dim, rate) => some (p, "Reserved", dim, rate)
            | none => authBackupSecondPass currency rest

/-- pricing_resolver.resolve_aws_backup_storage, parameterised by the
public fetch outcome and the authenticated phase outcome. -/
def resolve_aws_backup_storage (loc : String → Option String)
    (region_code currency : String)
    (pubFetched : Option PubDoc) (pubFetchError : String)
    (auth : AuthOutcome) : PricingResult :=
  match regionLocation loc region_code with
  | none => { error := some ("Unknown region: " ++ region_code) }
  | some location =>
      let pub_result := resolve_aws_backup_storage_public loc region_code currency
        pubFetched pubFetchError
      if !truthyOptStr pub_result.error && pub_result.rate_per_gb_month.isSome then
        { rate_per_gb_month := pub_result.rate_per_gb_month
          currency := pub_result.currency
          unit := pub_result.unit
          sku := pub_result.sku
          product_attributes := pub_result.product_attributes
          term_code := pub_result.term_code
          price_dimension := pub_result.price_dimension
          raw_filter_used := pub_result.raw_filter_used }
      else
        let filtersDiag : List (String × String) :=
          [("filters", "productFamily=Storage location=" ++ location ++ " serviceCode=AWS Backup")]
        match auth with
        | AuthOutcome.clientNoCreds =>
            { error := some (pyOrStr pub_result.error noCredsClientMsg)
              raw_filter_used := pub_result.raw_filter_used }
        | AuthOutcome.clientOtherError msg =>
            { error := some ("Failed to create pricing client: " ++ msg) }
        | AuthOutcome.prodNoCreds =>
            { error := some (pyOrStr pub_result.error noCredsQueryMsg)
              raw_filter_used := pub_result.raw_filter_used }
        | AuthOutcome.prodClientError msg =>
            { error := some msg, raw_filter_used := filtersDiag }
        | AuthOutcome.prodOtherError msg =>
            { error := some msg, raw_filter_used := filtersDiag }
        | AuthOutcome.ok products =>
            let best : PricingResult :=
              { raw_filter_used := [("service", "AWS Backup"), ("location", location)] }
            match authBackupFirstPass currency products with
            | some (p, dim, rate) =>
                { best with
                  rate_per_gb_month := some rate
                  sku := p.sku
                  product_attributes := p.attrs
                  term_code := some "OnDemand"
                  price_dimension := some dim
                  currency := currency
                  unit := "GB-Mo" }
            | none =>
                match authBackupSecondPass currency products with
                | some (p, term_type, dim, rate) =>
                    { best with
                      rate_per_gb_month := some rate
                      sku := p.sku
                      product_attributes := p.attrs
                      term_code := some term_type
                      price_dimension := some dim
                      currency := currency
                      unit := "GB-Mo" }
                | none =>
                    { best with error := some "No AWS Backup storage price found for location" }

/-- Authenticated S3 collection: all usable OnDemand dimensions of Storage
products, ranges via the inline beginRange/endRange extraction. -/
def authS3DimHits (sku : Option String) (attrs : Attrs) (currency : String) :
    List (String × Dim) → List S3Hit
  | [] => []
  | (_, dim) :: rest =>
      let tail := authS3DimHits sku attrs currency rest
      match res_parse_price_dimension dim currency with
      | (none, _) => tail
      | (some p, unit) =>
          match res_normalize_to_gb_month p unit with
          | none => tail
          | some rate =>
              if ¬ EF.le (EF.fin 0) rate then tail
              else
                let r := res_s3_range dim
                { start := r.1, stop := r.2, rate := rate,
                  sku := sku, attrs := attrs, dim := dim } :: tail

/-- Authenticated S3 collection across the OnDemand term entries of one
product. -/
def authS3TermHits (sku : Option String) (attrs : Attrs) (currency : String) :
    List (String × TermDetail) → List S3Hit
  | [] => []
  | (_, td) :: rest =>
      authS3DimHits sku attrs currency td.priceDimensions ++
        authS3TermHits sku attrs currency rest

/-- Authenticated S3 collection across all returned products. -/
def authS3Hits (currency : String) : List AuthProduct → List S3Hit
  | [] => []
  | p :: rest =>
      let tail := authS3Hits currency rest
      if p.attrs.productFamily ≠ some "Storage" then tail
      else authS3TermHits p.sku p.attrs currency p.onDemand ++ tail

/-- pricing_resolver.resolve_s3_storage, parameterised by the public fetch
outcome and the authenticated phase outcome. -/
def resolve_s3_storage (loc : String → Option String)
    (region_code storage_class currency : String)
    (pubFetched : Option PubDoc) (pubFetchError : String)
    (auth : AuthOutcome) : PricingResult :=
  match regionLocation loc region_code with
  | none => { error := some ("Unknown region: " ++ region_code) }
  | some location =>
      let pub_result := resolve_s3_storage_public loc region_code storage_class currency
        pubFetched pubFetchError
      if !truthyOptStr pub_result.error &&
          (pub_result.rate_per_gb_month.isSome || !pub_result.tiers.isEmpty) then
        { rate_per_gb_month := pub_result.rate_per_gb_month
          tiers := pub_result.tiers
          currency := pub_result.currency
          unit := pub_result.unit
          sku := pub_result.sku
          product_attributes := pub_result.product_attributes
          term_code := pub_result.term_code
          price_dimension := pub_result.price_dimension
          raw_filter_used := pub_result.raw_filter_used }
      else
        let filtersDiag : List (String × String) :=
          [("filters", "productFamily=Storage location=" ++ location ++
            " serviceCode=Amazon S3 storageClass=" ++ storage_class)]
        match auth with
        | AuthOutcome.clientNoCreds =>
            { error := some (pyOrStr pub_result.error noCredsClientMsg)
              raw_filter_used := pub_result.raw_filter_used }
        | AuthOutcome.clientOtherError msg =>
            { error := some ("Failed to create pricing client: " ++ msg) }
        | AuthOutcome.prodNoCreds =>
            { error := some (pyOrStr pub_result.error noCredsQueryMsg)
              raw_filter_used := pub_result.raw_filter_used }
        | AuthOutcome.prodClientError msg =>
            { error := some msg, raw_filter_used := filtersDiag }
        | AuthOutcome.prodOtherError msg =>
            { error := some msg, raw_filter_used := filtersDiag }
        | AuthOutcome.ok products =>
            let base : PricingResult :=
              { raw_filter_used := [("service", "Amazon S3"),
                  ("storageClass", storage_class), ("location", location)] }
            s3Collapse "No S3 storage price found for storage class and location"
              currency base (authS3Hits currency products)

/-! ## Claim-side definitions -/

/-- error != null implies no flat rate and no tiers (the invariant of claim C4,
as a decidable check on one result). -/
def errorExclusive (r : PricingResult) : Bool :=
  !r.error.isSome || (!r.rate_per_gb_month.isSome && r.tiers.isEmpty)

/-- rate and non-empty tiers never populated together (the invariant of
claim C5). -/
def flatTiersExclusive (r : PricingResult) : Bool :=
  !(r.rate_per_gb_month.isSome && !r.tiers.isEmpty)

/-- The collapse rule asserted by claim C2, as a check relating a collected
triple list to a result: sort ascending by start; if exactly one triple
exists and its end is unbounded the result carries it as the flat rate and
no tiers, otherwise the result carries the full sorted tier sequence and no
flat rate. -/
def collapseClaimB (triples : List (EF × EF × EF)) (r : PricingResult) : Bool :=
  let sorted := stableSort leTripleStart triples
  match singleUnboundedRate sorted with
  | some rate =>
      (r.rate_per_gb_month == some rate) && r.tiers.isEmpty
  | none =>
      (r.rate_per_gb_month == none) &&
      (r.tiers == sorted.map (fun t => build_tier_band t.1 t.2.1 t.2.2))

/-- The (start, end, rate) triples claim C2 asserts the backup public path
collects: every dimension of an on-demand term of a product matching
_backup_storage_match whose price parses and normalizes with rate >= 0,
with the range extracted by _range_from_dim.  (The code does not do this
for backup; this definition states what the claim says it does.) -/
def backupSpecDims (currency : String) : List (String × Dim) → List (EF × EF × EF)
  | [] => []
  | (_, dim) :: rest =>
      let tail := backupSpecDims currency rest
      match parse_price_dimension dim currency with
      | (none, _) => tail
      | (some p, unit) =>
          match normalize_to_gb_month p unit with
          | none => tail
          | some rate =>
              if ¬ EF.le (EF.fin 0) rate then tail
              else
                let r := range_from_dim dim
                (r.1, r.2, rate) :: tail

/-- Claim C2 backup collection across the term entries of one sku. -/
def backupSpecTerms (currency : String) : List (String × TermDetail) → List (EF × EF × EF)
  | [] => []
  | (_, td) :: rest =>
      backupSpecDims currency td.priceDimensions ++ backupSpecTerms currency rest

/-- Claim C2 backup collection: product scan helper. -/
def backupCollectSpecGo (onDemand : List (String × List (String × TermDetail)))
    (location currency : String) :
    List (String × PubProduct) → List (EF × EF × EF)
  | [] => []
  | (sku, product) :: rest =>
      let tail := backupCollectSpecGo onDemand location currency rest
      if ¬ backup_storage_match product.attrs location then tail
      else
        match dictGet sku onDemand with
        | none => tail
        | some term_entries => backupSpecTerms currency term_entries ++ tail

/-- Claim C2 backup collection across all products of a public offer
file. -/
def backupCollectSpec (doc : PubDoc) (location currency : String) : List (EF × EF × EF) :=
  backupCollectSpecGo doc.onDemand location currency doc.products

/-- The walk claim C7 describes: per band bill min(remaining, band_width)
(band_width = remaining for an open-ended band), accumulate billed * rate,
stop once remaining reaches zero. -/
def costTiersClaimGo (total remaining : ℚ) : List TierBand → ℚ
  | [] => total
  | band :: rest =>
      if remaining ≤ 0 then total
      else
        let width := match band.to_gb with
          | EF.inf => remaining
          | EF.fin t => t - band.from_gb
        let billed := min remaining width
        costTiersClaimGo (total + billed * band.rate_per_gb_month) (remaining - billed) rest

/-- The cost walk of claim C7 from a zero accumulator. -/
def cost_from_tiers_claim_walk (gb : ℚ) (tiers : List TierBand) : ℚ :=
  costTiersClaimGo 0 gb tiers

/-- The extraction claim C3 (as amended) attributes to the authenticated S3
path: only the beginRange / endRange convention, defaults [0, inf) on
absent or non-numeric fields. -/
def authRangeSpec (b e : Option JStr) : EF × EF :=
  (match b with
    | none => EF.fin 0
    | some v => (jstrFloat v).getD (EF.fin 0),
   match e with
    | none => EF.inf
    | some v => (jstrFloat v).getD EF.inf)

/-- The two-band S3 example tiers of the spec:
[0, 50 TiB) at 0.023 and [50 TiB, inf) at 0.022 USD per GB-month. -/
def exampleTiers : List TierBand :=
  [{ from_gb := 0, to_gb := EF.fin 51200, rate_per_gb_month := 23/1000 },
   { from_gb := 51200, to_gb := EF.inf, rate_per_gb_month := 22/1000 }]

/-! ## Cost engine claims (C7 - C10) -/

theorem costTiersGo_claim_eq (tiers : List TierBand)
    (hw : ∀ b ∈ tiers, ∀ t, b.to_gb = EF.fin t → b.from_gb ≤ t) :
    ∀ total remaining : ℚ,
      costTiersGo total remaining tiers = costTiersClaimGo total remaining tiers := by
  induction tiers with
  | nil => intro total remaining; rfl
  | cons band rest ih =>
      intro total remaining
      have hrest : ∀ b ∈ rest, ∀ t, b.to_gb = EF.fin t → b.from_gb ≤ t := by
        intro b hb; exact hw b (by simp [hb])
      simp only [costTiersGo, costTiersClaimGo]
      by_cases hr : remaining ≤ 0
      · simp [hr]
      · have hrem : 0 < remaining := lt_of_not_le hr
        simp only [hr, if_false]
        cases hto : band.to_gb with
        | inf =>
            simp only [hto, min_self]
            simp [hrem, ih hrest]
        | fin t =>
            have hwid : band.from_gb ≤ t := hw band (by simp) t hto
            simp only [hto]
            by_cases hpos : min remaining (t - band.from_gb) > 0
            · simp only [hpos, if_pos]
              exact ih hrest _ _
            · have h0 : min remaining (t - band.from_gb) = 0 :=
                le_antisymm (not_lt.mp hpos) (le_min (le_of_lt hrem) (by linarith))
              rw [h0]
              simp [ih hrest]

/-- Claim C7: cost_from_tiers walks the sorted bands billing
min(remaining, band_width) at the rate of each band and stopping at zero
remaining volume; on the example tiers of the spec, 40 TiB costs
40*1024*0.023 and 60 TiB costs 50*1024*0.023 + 10*1024*0.022. -/
theorem cost_from_tiers_walk :
    (∀ (gb : ℚ) (tiers : List TierBand),
      List.Pairwise (fun a b => a.from_gb ≤ b.from_gb) tiers →
      (∀ b ∈ tiers, ∀ t, b.to_gb = EF.fin t → b.from_gb ≤ t) →
      cost_from_tiers gb tiers = cost_from_tiers_claim_walk gb tiers)
    ∧ cost_from_tiers (40 * 1024) exampleTiers = 40 * 1024 * (23/1000)
    ∧ cost_from_tiers (60 * 1024) exampleTiers = 50 * 1024 * (23/1000) + 10 * 1024 * (22/1000) := by
  refine ⟨fun gb tiers _ hw => costTiersGo_claim_eq tiers hw 0 gb, ?_, ?_⟩
  · show costTiersGo 0 (40 * 1024) exampleTiers = 40 * 1024 * (23/1000)
    norm_num [exampleTiers, costTiersGo, min_def]
  · show costTiersGo 0 (60 * 1024) exampleTiers = 50 * 1024 * (23/1000) + 10 * 1024 * (22/1000)
    norm_num [exampleTiers, costTiersGo, min_def]

/-- Witness for C7: the walk equivalence applied to the example tiers,
whose sortedness and well-formedness are discharged concretely. -/
theorem cost_from_tiers_walk_witness :
    cost_from_tiers 7 exampleTiers = cost_from_tiers_claim_walk 7 exampleTiers :=
  cost_from_tiers_walk.1 7 exampleTiers
    (by norm_num [exampleTiers])
    (by
      intro b hb t ht
      fin_cases hb <;> simp_all [exampleTiers] <;> linarith)

/-- Claim C8: a single unbounded band [0, inf) at rate r prices any
g >= 0 as g * r, agreeing with cost_from_flat_rate. -/
theorem single_unbounded_band_flat_equiv (g r : ℚ) (hg : 0 ≤ g) :
    cost_from_tiers g [{ from_gb := 0, to_gb := EF.inf, rate_per_gb_month := r }] = g * r ∧
    cost_from_tiers g [{ from_gb := 0, to_gb := EF.inf, rate_per_gb_month := r }] =
      cost_from_flat_rate g r := by
  have h : cost_from_tiers g [{ from_gb := 0, to_gb := EF.inf, rate_per_gb_month := r }] = g * r := by
    simp only [cost_from_tiers, costTiersGo]
    rcases lt_or_eq_of_le hg with hpos | hzero
    · have h1 : ¬ g ≤ 0 := not_le_of_lt hpos
      simp [h1, min_self, hpos]
    · simp [← hzero]
  exact ⟨h, by rw [h]; rfl⟩

/-- Witness for C8 at g = 5, r = 3. -/
theorem single_unbounded_band_flat_equiv_witness :
    cost_from_tiers 5 [{ from_gb := 0, to_gb := EF.inf, rate_per_gb_month := 3 }] = 5 * 3 :=
  (single_unbounded_band_flat_equiv 5 3 (by norm_num)).1

/-- Claim C9: delta_pct is (cost - reference)/reference * 100, exactly 0
for a zero reference, with the two examples of the spec. -/
theorem delta_pct_spec (cost reference : ℚ) :
    (reference = 0 → delta_pct cost reference = 0) ∧
    (reference ≠ 0 → delta_pct cost reference = (cost - reference) / reference * 100) ∧
    delta_pct 100 80 = 25 ∧ delta_pct 50 0 = 0 := by
  refine ⟨fun h => by simp [delta_pct, h], fun h => by simp [delta_pct, h], ?_, ?_⟩
  · norm_num [delta_pct]
  · norm_num [delta_pct]

/-- Witness for C9 at (100, 80). -/
theorem delta_pct_spec_witness :
    delta_pct 100 80 = (100 - 80) / 80 * 100 :=
  (delta_pct_spec 100 80).2.1 (by norm_num)

/-- Claim C10: cost_from_tiers returns exactly 0 for non-positive volume
(any tier list) and for the empty tier list (any volume); no error in
either case. -/
theorem cost_from_tiers_zero_edge :
    (∀ (gb : ℚ) (tiers : List TierBand), gb ≤ 0 → cost_from_tiers gb tiers = 0) ∧
    (∀ gb : ℚ, cost_from_tiers gb [] = 0) := by
  constructor
  · intro gb tiers hgb
    cases tiers with
    | nil => rfl
    | cons b rest => simp [cost_from_tiers, costTiersGo, hgb]
  · intro gb; rfl

/-- Witness for C10 at gb = -2 with the example tiers. -/
theorem cost_from_tiers_zero_edge_witness :
    cost_from_tiers (-2) exampleTiers = 0 :=
  cost_from_tiers_zero_edge.1 (-2) exampleTiers (by norm_num)

/-! ## Helper lemmas about the pipeline -/

theorem s3MetaFold_rate (currency : String) (r : PricingResult) (hits : List S3Hit) :
    (s3MetaFold currency r hits).rate_per_gb_month = r.rate_per_gb_month := by
  induction hits generalizing r with
  | nil => rfl
  | cons h rest ih =>
      simp only [s3MetaFold]
      rw [ih]
      by_cases hs : r.sku = none <;> simp [hs]

theorem s3MetaFold_tiers (currency : String) (r : PricingResult) (hits : List S3Hit) :
    (s3MetaFold currency r hits).tiers = r.tiers := by
  induction hits generalizing r with
  | nil => rfl
  | cons h rest ih =>
      simp only [s3MetaFold]
      rw [ih]
      by_cases hs : r.sku = none <;> simp [hs]

theorem s3MetaFold_error (currency : String) (r : PricingResult) (hits : List S3Hit) :
    (s3MetaFold currency r hits).error = r.error := by
  induction hits generalizing r with
  | nil => rfl
  | cons h rest ih =>
      simp only [s3MetaFold]
      rw [ih]
      by_cases hs : r.sku = none <;> simp [hs]

theorem s3Collapse_error_exclusive (errMsg currency : String) (base : PricingResult)
    (hits : List S3Hit)
    (hrate : base.rate_per_gb_month = none) (htiers : base.tiers = [])
    (herr : base.error = none) :
    errorExclusive (s3Collapse errMsg currency base hits) = true := by
  cases hits with
  | nil => simp [s3Collapse, errorExclusive, hrate, htiers]
  | cons h rest =>
      simp only [s3Collapse]
      split
      · simp [errorExclusive, s3MetaFold_error, herr]
      · simp [errorExclusive, s3MetaFold_error, herr]

theorem s3Collapse_flat_exclusive (errMsg currency : String) (base : PricingResult)
    (hits : List S3Hit)
    (hrate : base.rate_per_gb_month = none) (htiers : base.tiers = []) :
    flatTiersExclusive (s3Collapse errMsg currency base hits) = true := by
  cases hits with
  | nil => simp [s3Collapse, flatTiersExclusive, hrate, htiers]
  | cons h rest =>
      simp only [s3Collapse]
      split
      · simp [flatTiersExclusive, s3MetaFold_tiers, htiers]
      · simp [flatTiersExclusive, s3MetaFold_rate, hrate]

theorem s3Collapse_collapseClaim (errMsg currency : String) (base : PricingResult)
    (hits : List S3Hit)
    (hrate : base.rate_per_gb_month = none) (htiers : base.tiers = []) :
    collapseClaimB (hits.map hitTriple) (s3Collapse errMsg currency base hits) = true := by
  cases hits with
  | nil =>
      simp [s3Collapse, collapseClaimB, stableSort, singleUnboundedRate, hrate, htiers]
  | cons h rest =>
      simp only [s3Collapse, collapseClaimB]
      cases hC : singleUnboundedRate (stableSort leTripleStart (List.map hitTriple (h :: rest))) with
      | none => simp [hC, s3MetaFold_rate, s3MetaFold_tiers, hrate, htiers]
      | some rate => simp [hC, s3MetaFold_rate, s3MetaFold_tiers, hrate, htiers]

theorem s3Collapse_tiers_sorted (errMsg currency : String) (base : PricingResult)
    (hits : List S3Hit) (htiers : base.tiers = []) :
    List.Pairwise (fun a b => EF.le a.from_gb b.from_gb = true)
      (s3Collapse errMsg currency base hits).tiers := by
  cases hits with
  | nil => simp [s3Collapse, htiers]
  | cons h rest =>
      simp only [s3Collapse]
      split
      · simp [s3MetaFold_tiers, htiers]
      · simp only [s3MetaFold_tiers]
        have hp := stableSort_pairwise leTripleStart
          (fun a b => efLe_total a.1 b.1)
          (fun a b c h1 h2 => efLe_trans a.1 b.1 c.1 h1 h2)
          ((h :: rest).map hitTriple)
        refine List.Pairwise.map _ ?_ hp
        intro a b hab
        simpa [build_tier_band, leTripleStart] using hab

theorem pub_backup_unknown_region (loc : String → Option String) (rc c : String)
    (f : Option PubDoc) (e : String) (h : regionLocation loc rc = none) :
    (resolve_aws_backup_storage_public loc rc c f e).error = some ("Unknown region: " ++ rc) := by
  simp [resolve_aws_backup_storage_public, h]

theorem pub_s3_unknown_region (loc : String → Option String) (rc sc c : String)
    (f : Option PubDoc) (e : String) (h : regionLocation loc rc = none) :
    (resolve_s3_storage_public loc rc sc c f e).error = some ("Unknown region: " ++ rc) := by
  simp [resolve_s3_storage_public, h]

theorem pub_backup_tiers_nil (loc : String → Option String) (rc c : String)
    (f : Option PubDoc) (e : String) :
    (resolve_aws_backup_storage_public loc rc c f e).tiers = [] := by
  simp only [resolve_aws_backup_storage_public]
  split
  · rfl
  · split
    · rfl
    · split
      · rfl
      · rfl

theorem pub_backup_error_exclusive (loc : String → Option String) (rc c : String)
    (f : Option PubDoc) (e : String) :
    errorExclusive (resolve_aws_backup_storage_public loc rc c f e) = true := by
  simp only [resolve_aws_backup_storage_public]
  split
  · simp [errorExclusive]
  · split
    · simp [errorExclusive]
    · split
      · simp [errorExclusive]
      · simp [errorExclusive]

theorem pub_s3_error_exclusive (loc : String → Option String) (rc sc c : String)
    (f : Option PubDoc) (e : String) :
    errorExclusive (resolve_s3_storage_public loc rc sc c f e) = true := by
  simp only [resolve_s3_storage_public]
  split
  · simp [errorExclusive]
  · split
    · simp [errorExclusive]
    · exact s3Collapse_error_exclusive _ _ _ _ rfl rfl rfl

theorem pub_backup_flat_exclusive (loc : String → Option String) (rc c : String)
    (f : Option PubDoc) (e : String) :
    flatTiersExclusive (resolve_aws_backup_storage_public loc rc c f e) = true := by
  have h := pub_backup_tiers_nil loc rc c f e
  simp [flatTiersExclusive, h]

theorem pub_s3_flat_exclusive (loc : String → Option String) (rc sc c : String)
    (f : Option PubDoc) (e : String) :
    flatTiersExclusive (resolve_s3_storage_public loc rc sc c f e) = true := by
  simp only [resolve_s3_storage_public]
  split
  · simp [flatTiersExclusive]
  · split
    · simp [flatTiersExclusive]
    · exact s3Collapse_flat_exclusive _ _ _ _ rfl rfl

theorem res_backup_error_exclusive (loc : String → Option String) (rc c : String)
    (f : Option PubDoc) (e : String) (auth : AuthOutcome) :
    errorExclusive (resolve_aws_backup_storage loc rc c f e auth) = true := by
  simp only [resolve_aws_backup_storage]
  split
  · simp [errorExclusive]
  · split
    · simp [errorExclusive]
    · cases auth with
      | clientNoCreds => simp [errorExclusive]
      | clientOtherError msg => simp [errorExclusive]
      | prodNoCreds => simp [errorExclusive]
      | prodClientError msg => simp [errorExclusive]
      | prodOtherError msg => simp [errorExclusive]
      | ok products =>
          simp only
          split
          · simp [errorExclusive]
          · split
            · simp [errorExclusive]
            · simp [errorExclusive]

theorem res_backup_flat_exclusive (loc : String → Option String) (rc c : String)
    (f : Option PubDoc) (e : String) (auth : AuthOutcome) :
    flatTiersExclusive (resolve_aws_backup_storage loc rc c f e auth) = true := by
  simp only [resolve_aws_backup_storage]
  split
  · simp [flatTiersExclusive]
  · split
    · simp [flatTiersExclusive]
    · cases auth with
      | clientNoCreds => simp [flatTiersExclusive]
      | clientOtherError msg => simp [flatTiersExclusive]
      | prodNoCreds => simp [flatTiersExclusive]
      | prodClientError msg => simp [flatTiersExclusive]
      | prodOtherError msg => simp [flatTiersExclusive]
      | ok products =>
          simp only
          split
          · simp [flatTiersExclusive]
          · split
            · simp [flatTiersExclusive]
            · simp [flatTiersExclusive]

theorem res_s3_error_exclusive (loc : String → Option String) (rc sc c : String)
    (f : Option PubDoc) (e : String) (auth : AuthOutcome) :
    errorExclusive (resolve_s3_storage loc rc sc c f e auth) = true := by
  simp only [resolve_s3_storage]
  split
  · simp [errorExclusive]
  · split
    · simp [errorExclusive]
    · cases auth with
      | clientNoCreds => simp [errorExclusive]
      | clientOtherError msg => simp [errorExclusive]
      | prodNoCreds => simp [errorExclusive]
      | prodClientError msg => simp [errorExclusive]
      | prodOtherError msg => simp [errorExclusive]
      | ok products => exact s3Collapse_error_exclusive _ _ _ _ rfl rfl rfl

theorem res_s3_flat_exclusive (loc : String → Option String) (rc sc c : String)
    (f : Option PubDoc) (e : String) (auth : AuthOutcome) :
    flatTiersExclusive (resolve_s3_storage loc rc sc c f e auth) = true := by
  have hp := pub_s3_flat_exclusive loc rc sc c f e
  simp only [resolve_s3_storage]
  split
  · simp [flatTiersExclusive]
  · split
    · simp only [flatTiersExclusive] at hp ⊢
      simpa using hp
    · cases auth with
      | clientNoCreds => simp [flatTiersExclusive]
      | clientOtherError msg => simp [flatTiersExclusive]
      | prodNoCreds => simp [flatTiersExclusive]
      | prodClientError msg => simp [flatTiersExclusive]
      | prodOtherError msg => simp [flatTiersExclusive]
      | ok products => exact s3Collapse_flat_exclusive _ _ _ _ rfl rfl

/-- Componentwise equality of pricing results. -/
theorem pricingResult_ext (a b : PricingResult)
    (h1 : a.rate_per_gb_month = b.rate_per_gb_month) (h2 : a.tiers = b.tiers)
    (h3 : a.unit = b.unit) (h4 : a.currency = b.currency) (h5 : a.sku = b.sku)
    (h6 : a.product_attributes = b.product_attributes) (h7 : a.term_code = b.term_code)
    (h8 : a.price_dimension = b.price_dimension) (h9 : a.raw_filter_used = b.raw_filter_used)
    (h10 : a.error = b.error) : a = b := by
  cases a; cases b; simp_all

/-! ## Claims C1 - C6 -/

/-- Claim C1: whenever the public client returns a result with no error and
at least one of flat rate / tiers populated, both resolver operations
return that public result unchanged, for every authenticated outcome
(so the authenticated client is never consulted). -/
theorem resolver_public_precedence
    (loc : String → Option String) (region_code storage_class currency : String)
    (fb : Option PubDoc) (eb : String) (fs : Option PubDoc) (es : String)
    (auth : AuthOutcome) :
    ((resolve_aws_backup_storage_public loc region_code currency fb eb).error = none →
      ((resolve_aws_backup_storage_public loc region_code currency fb eb).rate_per_gb_month ≠ none ∨
        (resolve_aws_backup_storage_public loc region_code currency fb eb).tiers ≠ []) →
      resolve_aws_backup_storage loc region_code currency fb eb auth =
        resolve_aws_backup_storage_public loc region_code currency fb eb) ∧
    ((resolve_s3_storage_public loc region_code storage_class currency fs es).error = none →
      ((resolve_s3_storage_public loc region_code storage_class currency fs es).rate_per_gb_month ≠ none ∨
        (resolve_s3_storage_public loc region_code storage_class currency fs es).tiers ≠ []) →
      resolve_s3_storage loc region_code storage_class currency fs es auth =
        resolve_s3_storage_public loc region_code storage_class currency fs es) := by
  constructor
  · intro herr husable
    cases hL : regionLocation loc region_code with
    | none =>
        rw [pub_backup_unknown_region loc region_code currency fb eb hL] at herr
        cases herr
    | some location =>
        have hrate : (resolve_aws_backup_storage_public loc region_code currency fb eb).rate_per_gb_month.isSome = true := by
          rcases husable with h | h
          · exact Option.isSome_iff_ne_none.mpr h
          · exact absurd (pub_backup_tiers_nil loc region_code currency fb eb) h
        have hcond : (!truthyOptStr (resolve_aws_backup_storage_public loc region_code currency fb eb).error &&
            (resolve_aws_backup_storage_public loc region_code currency fb eb).rate_per_gb_month.isSome) = true := by
          rw [herr]; simp [truthyOptStr, hrate]
        simp only [resolve_aws_backup_storage, hL, hcond, if_true]
        refine pricingResult_ext _ _ rfl ?_ rfl rfl rfl rfl rfl rfl rfl ?_
        · exact (pub_backup_tiers_nil loc region_code currency fb eb).symm
        · exact herr.symm
  · intro herr husable
    cases hL : regionLocation loc region_code with
    | none =>
        rw [pub_s3_unknown_region loc region_code storage_class currency fs es hL] at herr
        cases herr
    | some location =>
        have hcond : (!truthyOptStr (resolve_s3_storage_public loc region_code storage_class currency fs es).error &&
            ((resolve_s3_storage_public loc region_code storage_class currency fs es).rate_per_gb_month.isSome ||
              !(resolve_s3_storage_public loc region_code storage_class currency fs es).tiers.isEmpty)) = true := by
          rw [herr]
          rcases husable with h | h
          · simp [truthyOptStr, Option.isSome_iff_ne_none.mpr h]
          · simp [truthyOptStr, List.isEmpty_iff, h]
        simp only [resolve_s3_storage, hL, hcond, if_true]
        refine pricingResult_ext _ _ rfl rfl rfl rfl rfl rfl rfl rfl rfl ?_
        exact herr.symm

/-- The lookup table, document and public fetch outcome used as concrete
witness inputs: one Storage product in region r1 / location L with a single
usable unbounded on-demand dimension. -/
def locW : String → Option String := fun r => if r = "r1" then some "L" else none

/-- A usable price dimension: 5 USD per GB-Mo, no range fields. -/
def dimW : Dim := { pricePerUnit := some [("USD", JStr.num 5)], unit := some "GB-Mo" }

/-- A public offer document with one qualifying product for both the backup
matcher (productFamily Storage, location L) and the S3 matcher
(storageClass STANDARD). -/
def docW : PubDoc :=
  { products := [("SKU1",
      { attrs := { location := some "L", productFamily := some "Storage",
                   storageClass := some "Standard" } })],
    onDemand := [("SKU1", [("T1", { priceDimensions := [("D1", dimW)] })])] }

/-- Witness for C1: on the concrete document the public result is usable
and the resolver returns it unchanged with the authenticated stub never
reached. -/
theorem resolver_public_precedence_witness :
    resolve_aws_backup_storage locW "r1" "USD" (some docW) "" (AuthOutcome.ok []) =
      resolve_aws_backup_storage_public locW "r1" "USD" (some docW) "" :=
  (resolver_public_precedence locW "r1" "STANDARD" "USD" (some docW) "" (some docW) ""
      (AuthOutcome.ok [])).1
    (by decide) (Or.inl (by decide))

/-- A bounded-range dimension: rate 5, range [0, 100). -/
def dimC2 : Dim :=
  { pricePerUnit := some [("USD", JStr.num 5)], unit := some "GB-Mo",
    beginRange := some (JStr.num 0), endRange := some (JStr.num 100) }

/-- An offer document whose only qualifying backup dimension has a bounded
range. -/
def docC2 : PubDoc :=
  { products := [("SKU1",
      { attrs := { location := some "LocX", productFamily := some "Storage" } })],
    onDemand := [("SKU1", [("T1", { priceDimensions := [("D1", dimC2)] })])] }

/-- The lookup for the C2 counterexample region. -/
def locC2 : String → Option String := fun r => if r = "us-east-1" then some "LocX" else none

/-- Counterexample to C2: on the backup public path the collected triples
are the single bounded triple (0, 100, 5), so the claimed collapse rule
demands the full tier sequence, but the code reports a flat rate 5 with no
tiers. -/
theorem public_backup_no_collapse_counterexample :
    collapseClaimB (backupCollectSpec docC2 "LocX" "USD")
      (resolve_aws_backup_storage_public locC2 "us-east-1" "USD" (some docC2) "") = false ∧
    backupCollectSpec docC2 "LocX" "USD" = [(EF.fin 0, EF.fin 100, EF.fin 5)] ∧
    (resolve_aws_backup_storage_public locC2 "us-east-1" "USD" (some docC2) "").rate_per_gb_month =
      some (EF.fin 5) ∧
    (resolve_aws_backup_storage_public locC2 "us-east-1" "USD" (some docC2) "").tiers = [] := by
  decide

/-- Claim C2 as amended: the collect-sort-collapse rule holds for the S3
public path (whose reported tiers are sorted ascending by start), while
the backup public path never produces tiers and reports the first usable
on-demand dimension as a flat rate. -/
theorem public_collapse_rule_amended
    (loc : String → Option String) (region_code storage_class currency : String)
    (doc : PubDoc) (fetch_error : String) (location : String)
    (hloc : regionLocation loc region_code = some location) :
    collapseClaimB
        ((s3PublicHits doc.onDemand location storage_class currency doc.products).map hitTriple)
        (resolve_s3_storage_public loc region_code storage_class currency (some doc) fetch_error)
      = true ∧
    List.Pairwise (fun a b => EF.le a.from_gb b.from_gb = true)
      (resolve_s3_storage_public loc region_code storage_class currency (some doc) fetch_error).tiers ∧
    (∀ (f : Option PubDoc) (e rc c : String),
      (resolve_aws_backup_storage_public loc rc c f e).tiers = []) ∧
    (∀ (d : PubDoc) (e c : String) (sku : String) (attrs : Attrs) (dim : Dim) (rate : EF),
      firstBackupHit d.onDemand location c d.products = some (sku, attrs, dim, rate) →
      (resolve_aws_backup_storage_public loc region_code c (some d) e).rate_per_gb_month =
        some rate) := by
  refine ⟨?_, ?_, fun f e rc c => pub_backup_tiers_nil loc rc c f e, ?_⟩
  · simp only [resolve_s3_storage_public, hloc]
    exact s3Collapse_collapseClaim _ _ _ _ rfl rfl
  · simp only [resolve_s3_storage_public, hloc]
    exact s3Collapse_tiers_sorted _ _ _ _ rfl
  · intro d e c sku attrs dim rate hfound
    simp [resolve_aws_backup_storage_public, hloc, hfound]

/-- Witness for the amended C2 at the concrete document. -/
theorem public_collapse_rule_amended_witness :
    collapseClaimB
        ((s3PublicHits docW.onDemand "L" "STANDARD" "USD" docW.products).map hitTriple)
        (resolve_s3_storage_public locW "r1" "STANDARD" "USD" (some docW) "") = true :=
  (public_collapse_rule_amended locW "r1" "STANDARD" "USD" docW "" "L" (by decide)).1

/-- A dimension that only carries the startingRange spelling. -/
def dimC3 : Dim := { startingRange := some (JStr.num 100) }

/-- Counterexample to C3: the authenticated S3 range extraction ignores
startingRange, so it disagrees with _range_from_dim on a dimension where
only that spelling is present. -/
theorem auth_range_counterexample :
    res_s3_range dimC3 ≠ range_from_dim dimC3 ∧
    res_s3_range dimC3 = (EF.fin 0, EF.inf) ∧
    range_from_dim dimC3 = (EF.fin 100, EF.inf) := by
  decide

/-- Claim C3 as amended: the authenticated S3 path extracts tier
boundaries from beginRange/endRange only, defaulting to [0, unbounded)
when absent or non-numeric, and coincides with _range_from_dim exactly
when the startingRange/endingRange spellings are absent. -/
theorem auth_range_beginRange_only :
    (∀ dim : Dim, res_s3_range dim = authRangeSpec dim.beginRange dim.endRange) ∧
    (∀ dim : Dim, dim.startingRange = none → dim.endingRange = none →
      res_s3_range dim = range_from_dim dim) := by
  constructor
  · intro dim; rfl
  · intro dim h1 h2
    obtain ⟨pu, un, br, er, sr, enr⟩ := dim
    simp only at h1 h2
    subst h1; subst h2
    rcases br with _ | v <;> rcases er with _ | w
    · rfl
    · cases w <;> rfl
    · cases v <;> rfl
    · cases v <;> cases w <;> rfl

/-- Witness for the amended C3 on a dimension using only beginRange. -/
theorem auth_range_beginRange_only_witness :
    res_s3_range { beginRange := some (JStr.num 7) } =
      range_from_dim { beginRange := some (JStr.num 7) } :=
  auth_range_beginRange_only.2 { beginRange := some (JStr.num 7) } rfl rfl

/-- Claim C4: every result of the four operations with error set carries
neither a flat rate nor tiers. -/
theorem error_implies_no_rate_no_tiers :
    ∀ (loc : String → Option String) (region_code storage_class currency : String)
      (f : Option PubDoc) (e : String) (auth : AuthOutcome),
      errorExclusive (resolve_aws_backup_storage_public loc region_code currency f e) = true ∧
      errorExclusive (resolve_s3_storage_public loc region_code storage_class currency f e) = true ∧
      errorExclusive (resolve_aws_backup_storage loc region_code currency f e auth) = true ∧
      errorExclusive (resolve_s3_storage loc region_code storage_class currency f e auth) = true :=
  fun loc rc sc c f e auth =>
    ⟨pub_backup_error_exclusive loc rc c f e,
     pub_s3_error_exclusive loc rc sc c f e,
     res_backup_error_exclusive loc rc c f e auth,
     res_s3_error_exclusive loc rc sc c f e auth⟩

/-- Claim C5: no result of the four operations ever carries both a flat
rate and non-empty tiers. -/
theorem flat_and_tiers_never_both :
    ∀ (loc : String → Option String) (region_code storage_class currency : String)
      (f : Option PubDoc) (e : String) (auth : AuthOutcome),
      flatTiersExclusive (resolve_aws_backup_storage_public loc region_code currency f e) = true ∧
      flatTiersExclusive (resolve_s3_storage_public loc region_code storage_class currency f e) = true ∧
      flatTiersExclusive (resolve_aws_backup_storage loc region_code currency f e auth) = true ∧
      flatTiersExclusive (resolve_s3_storage loc region_code storage_class currency f e auth) = true :=
  fun loc rc sc c f e auth =>
    ⟨pub_backup_flat_exclusive loc rc c f e,
     pub_s3_flat_exclusive loc rc sc c f e,
     res_backup_flat_exclusive loc rc c f e auth,
     res_s3_flat_exclusive loc rc sc c f e auth⟩

/-- Claim C6: when the fallback runs and the authenticated phase fails for
lack of credentials (at client construction or in the query), the
resolvers surface the error text of the public client itself whenever it is
non-empty, and the respective generic no-credentials message only
otherwise; pyOrStr is exactly that selection. -/
theorem no_creds_prefers_public_error
    (loc : String → Option String) (region_code storage_class currency : String)
    (fb : Option PubDoc) (eb : String) (fs : Option PubDoc) (es : String)
    (location : String) (hloc : regionLocation loc region_code = some location)
    (hcondB : (!truthyOptStr (resolve_aws_backup_storage_public loc region_code currency fb eb).error &&
        (resolve_aws_backup_storage_public loc region_code currency fb eb).rate_per_gb_month.isSome) = false)
    (hcondS : (!truthyOptStr (resolve_s3_storage_public loc region_code storage_class currency fs es).error &&
        ((resolve_s3_storage_public loc region_code storage_class currency fs es).rate_per_gb_month.isSome ||
          !(resolve_s3_storage_public loc region_code storage_class currency fs es).tiers.isEmpty)) = false) :
    (resolve_aws_backup_storage loc region_code currency fb eb AuthOutcome.clientNoCreds).error =
      some (pyOrStr (resolve_aws_backup_storage_public loc region_code currency fb eb).error
        noCredsClientMsg) ∧
    (resolve_aws_backup_storage loc region_code currency fb eb AuthOutcome.prodNoCreds).error =
      some (pyOrStr (resolve_aws_backup_storage_public loc region_code currency fb eb).error
        noCredsQueryMsg) ∧
    (resolve_s3_storage loc region_code storage_class currency fs es AuthOutcome.clientNoCreds).error =
      some (pyOrStr (resolve_s3_storage_public loc region_code storage_class currency fs es).error
        noCredsClientMsg) ∧
    (resolve_s3_storage loc region_code storage_class currency fs es AuthOutcome.prodNoCreds).error =
      some (pyOrStr (resolve_s3_storage_public loc region_code storage_class currency fs es).error
        noCredsQueryMsg) ∧
    (∀ (o : Option String) (d : String),
      (truthyOptStr o = true → some (pyOrStr o d) = o) ∧
      (truthyOptStr o = false → pyOrStr o d = d)) := by
  refine ⟨?_, ?_, ?_, ?_, ?_⟩
  · simp [resolve_aws_backup_storage, hloc, hcondB]
  · simp [resolve_aws_backup_storage, hloc, hcondB]
  · simp [resolve_s3_storage, hloc, hcondS]
  · simp [resolve_s3_storage, hloc, hcondS]
  · intro o d
    cases o with
    | none => simp [truthyOptStr, pyOrStr]
    | some s =>
        refine ⟨fun h => ?_, fun h => ?_⟩
        · have hs : ¬ s = "" := by simpa [truthyOptStr] using h
          simp [pyOrStr, hs]
        · have hs : s = "" := by simpa [truthyOptStr] using h
          simp [pyOrStr, hs]

/-- Witness for C6: with a failed public fetch (non-empty public error) and
no credentials, the backup resolver surfaces the public error text. -/
theorem no_creds_prefers_public_error_witness :
    (resolve_aws_backup_storage locW "r1" "USD" none "boom" AuthOutcome.clientNoCreds).error =
      some (pyOrStr (resolve_aws_backup_storage_public locW "r1" "USD" none "boom").error
        noCredsClientMsg) :=
  (no_creds_prefers_public_error locW "r1" "STANDARD" "USD" none "boom" none "boom2" "L"
    (by decide) (by decide) (by decide)).1
